import Mathlib

/-!
# Verification of the memory-matching card game (`src/main.js`)

Shallow embedding of the game-state machine and board logic of the
`MemoryGame` class: card generation and shuffle (`shuffleCards`,
`createGameBoard`), dimension lookup (`getDimensions`), the click handler
(`handleCardClick`), delayed match resolution (`checkMatch`, `handleMatch`,
`handleMismatch`), turn and timer bookkeeping (`updateTurns`, `startTimer`)
and win detection (`checkGameOver`).

The browser's `setTimeout` / `setInterval` machinery is embedded as an
explicit scheduler: a queue of time-stamped tasks executed in (due-time,
insertion-order) order.  DOM card elements are identified by a board
generation number together with the card id; replacing the board
(`startGame` sets `innerHTML = ''` and appends fresh elements) bumps the
generation, so that callbacks holding references to detached elements of an
old board no longer affect the current one — exactly as in the browser.
-/

namespace MG

/-- The `GAME_STATES` constant of `src/main.js` (lines 6–11). -/
inductive GState where
  | idle
  | playing
  | checking
  | finished
deriving DecidableEq, Repr

/-- The built-in symbol pool assigned in the `MemoryGame` constructor
(`src/main.js` lines 70–74): `this.symbols` is never set before the
`Array.isArray` check, so the fallback literal is always taken. -/
def symbols : List String :=
  ["1", "2", "3", "4", "5", "6", "7", "8", "9", "10", "11", "12",
   "A", "B", "C", "L", "W", "X", "Y", "Z", "M", "N", "O", "P", "Q",
   "R", "S", "T", "U", "V"]

/-- Result of the JavaScript property lookup `dimensions[level]` in
`getDimensions`: either a `[rows, cols]` pair (an own property of the
literal, or the `|| [4, 4]` fallback when the lookup was falsy), or a
truthy member inherited from `Object.prototype` (a function, or the
`__proto__` object) — not a pair, so `createGameBoard`'s destructuring
`const [rows, cols] = this.getDimensions(...)` throws a `TypeError` on
it. -/
inductive DimLookup where
  | pair (rows cols : Nat)
  | inherited
deriving DecidableEq, Repr

/-- Property names an object literal inherits from `Object.prototype`:
looking any of these up on the `dimensions` literal yields a truthy
non-pair value, so the `|| [4, 4]` fallback is NOT taken. -/
def protoKeys : List String :=
  ["constructor", "hasOwnProperty", "isPrototypeOf", "propertyIsEnumerable",
   "toLocaleString", "toString", "valueOf", "__defineGetter__",
   "__defineSetter__", "__lookupGetter__", "__lookupSetter__", "__proto__"]

/-- Embedding of `getDimensions(level)` (`src/main.js` lines 126–135):
the dictionary lookup `dimensions[level] || [4, 4]`.  The five own
properties map to their pairs; any other string is looked up through the
prototype chain: an `Object.prototype` member name yields that truthy
inherited member (no `[4, 4]` fallback), and every remaining string
yields `undefined` and falls back to `[4, 4]`. -/
def getDimensions (level : String) : DimLookup :=
  if level = "2x2" then DimLookup.pair 2 2
  else if level = "4x3" then DimLookup.pair 4 3
  else if level = "4x4" then DimLookup.pair 4 4
  else if level = "4x5" then DimLookup.pair 4 5
  else if level = "4x6" then DimLookup.pair 4 6
  else if level ∈ protoKeys then DimLookup.inherited
  else DimLookup.pair 4 4

/-- A card as produced by `shuffleCards`: `{ symbol, id }`
(`src/main.js` line 159). -/
structure SCard where
  symbol : String
  id : Nat
deriving DecidableEq, Repr

/-- One step of the `Array.prototype.sort` comparator
`() => Math.random() - 0.5` (`src/main.js` line 158): each call is an
independent fair coin (the sign of `Math.random() - 0.5`), modelled as a
stream of Booleans, `true` meaning "the comparator returned a negative
number, keep the inserted element in front".  ECMAScript leaves the sort
algorithm implementation-defined; we model it as stable insertion sort
(what major engines use for short arrays).  `insertWith` inserts one
element into a list, consuming one coin per comparison; an exhausted
stream compares as non-negative. -/
def insertWith : List Bool → String → List String → List Bool × List String
  | coins, x, [] => (coins, [x])
  | [], x, y :: ys =>
      let r := insertWith [] x ys
      (r.1, y :: r.2)
  | true :: coins, x, y :: ys => (coins, x :: y :: ys)
  | false :: coins, x, y :: ys =>
      let r := insertWith coins x ys
      (r.1, y :: r.2)

/-- Insertion sort driven by the random-comparator coin stream; models
`deck.sort(() => Math.random() - 0.5)` of `src/main.js` line 158. -/
def sortWith : List Bool → List String → List Bool × List String
  | coins, [] => (coins, [])
  | coins, x :: xs =>
      let r := sortWith coins xs
      insertWith r.1 x r.2

/-- Embedding of `shuffleCards(totalCards)` (`src/main.js` lines 155–160):
`this.symbols.slice(0, totalCards / 2)` (JavaScript `slice` truncates the
fractional bound, so an odd `totalCards` silently floors, and a bound past
the end silently caps at the pool length), spread twice, sorted with the
random comparator, and `.map((symbol, id) => ({ symbol, id }))` assigning
the array index as the id. -/
def shuffleCards (coins : List Bool) (totalCards : Nat) : List SCard :=
  let halfDeck := symbols.take (totalCards / 2)
  let deck := halfDeck ++ halfDeck
  ((sortWith coins deck).2.enum.map fun p => ⟨p.2, p.1⟩)

/-- All coin streams of length `n`, each equally likely: the comparator's
calls are independent fair coin flips, and insertion sort of a 4-element
deck makes at most 6 comparisons, so the distribution of
`deck.sort(() => Math.random() - 0.5)` is the distribution of
`(sortWith coins deck).2` over the `2^6` equiprobable streams. -/
def allStreams : Nat → List (List Bool)
  | 0 => [[]]
  | n + 1 => (allStreams n).flatMap fun s => [true :: s, false :: s]

/-- Number of the `2^6` equiprobable coin streams under which the random
sort comparator leaves the 2×2 deck `["1","2","1","2"]`
(`src/main.js` lines 156–157) in the arrangement `out`. -/
def shuffleCount (out : List String) : Nat :=
  ((allStreams 6).filter
    fun coins => (sortWith coins ["1", "2", "1", "2"]).2 = out).length

/-- A card element of the rendered board: the `symbol`/`id` pair of
`shuffleCards` plus the `flipped` and `matched` CSS classes toggled by
`handleCardClick`, `handleMatch` and `handleMismatch`. -/
structure Card where
  symbol : String
  id : Nat
  flipped : Bool
  matched : Bool
deriving DecidableEq, Repr

/-- An entry of `this.selectedCards` (`src/main.js` line 190):
`{ element, symbol }`.  The DOM element reference is modelled by the board
generation it belongs to together with its card id. -/
structure Sel where
  gen : Nat
  id : Nat
  symbol : String
deriving DecidableEq, Repr

/-- The deferred callbacks the game schedules with `setTimeout` /
`requestAnimationFrame` / `setInterval`:
* `checkMatch` — scheduled in `handleCardClick` line 195;
* `unlock` — the inner timeout of `checkMatch` (lines 215–218) that sets
  `allowClick = true` and runs `checkGameOver`;
* `markMatched` — the `requestAnimationFrame`+`setTimeout` body of
  `handleMatch` (lines 231–237) adding the `matched` class to two card
  elements and setting `gameState = PLAYING`;
* `unflip` — the timeout of `handleMismatch` (lines 247–251) removing the
  `flipped` class from two card elements;
* `tick` — the `setInterval` callback of `startTimer` (lines 268–271),
  tagged with its interval id so that `clearInterval` kills it. -/
inductive Task where
  | checkMatch
  | unlock
  | markMatched (g1 i1 g2 i2 : Nat)
  | unflip (g1 i1 g2 i2 : Nat)
  | tick (tid : Nat)
deriving DecidableEq, Repr

/-- A scheduled task: due time in ms, an insertion sequence number used as
FIFO tie-break (the browser runs same-deadline timers in creation order),
and the callback. -/
structure STask where
  due : Nat
  seq : Nat
  task : Task
deriving DecidableEq, Repr

/-- The whole mutable state of `MemoryGame` together with the event loop:
the instance fields of the class (lines 60–67), the rendered board with
its generation number, the interval bookkeeping of `startTimer`, the
visible win message and saved-stats flag of `finishGame`/`saveGameStats`,
a counter of uncaught exceptions thrown inside callbacks, and the task
queue. -/
structure World where
  cards : List Card
  gen : Nat
  selectedCards : List Sel
  allowClick : Bool
  turns : Nat
  seconds : Nat
  activeTimer : Option Nat
  timerCount : Nat
  gameState : GState
  winShown : Bool
  statsSaved : Bool
  crashes : Nat
  now : Nat
  tasks : List STask
  nextSeq : Nat
deriving DecidableEq, Repr

/-- Models `setTimeout(cb, delay)` at the current time. -/
def schedule (w : World) (delay : Nat) (t : Task) : World :=
  { w with tasks := w.tasks ++ [⟨w.now + delay, w.nextSeq, t⟩],
           nextSeq := w.nextSeq + 1 }

/-- Constant `ANIMATION_DURATION` (`src/main.js` line 4). -/
def ANIMATION_DURATION : Nat := 600

/-- Constant `CHECK_MATCH_DELAY` (`src/main.js` line 5). -/
def CHECK_MATCH_DELAY : Nat := 1600

/-- Embedding of `handleCardClick(cardElement, symbol)` (`src/main.js` lines 182–197):
return early if `!allowClick` or the element has the `flipped` or
`matched` class; otherwise add `flipped`, push `{element, symbol}`, and if
the selection reached length 2, clear `allowClick`, call `updateTurns()`
(line 254–257: `this.turns++`) and schedule `checkMatch` after
`ANIMATION_DURATION`.  Clicks arrive only on elements of the current
board, so the card is looked up in `w.cards` by id. -/
def flipStep (w : World) (i : Nat) : World :=
  match w.cards.find? (fun c => c.id = i) with
  | none => w
  | some c =>
    if ¬ w.allowClick ∨ c.flipped ∨ c.matched then w
    else
      let w1 := { w with
        cards := w.cards.map fun d =>
          if d.id = i then { d with flipped := true } else d,
        selectedCards := w.selectedCards ++ [⟨w.gen, i, c.symbol⟩] }
      if w1.selectedCards.length = 2 then
        schedule { w1 with allowClick := false, turns := w1.turns + 1 }
          ANIMATION_DURATION Task.checkMatch
      else w1

/-- Add the `matched` class to the element `(g, i)`: a no-op on the
current board when the element belongs to a replaced (detached) board. -/
def setMatched (w : World) (g i : Nat) : World :=
  if g = w.gen then
    { w with cards := w.cards.map fun d =>
        if d.id = i then { d with matched := true } else d }
  else w

/-- Remove the `flipped` class from the element `(g, i)`; no-op when the
element belongs to a replaced board. -/
def setUnflipped (w : World) (g i : Nat) : World :=
  if g = w.gen then
    { w with cards := w.cards.map fun d =>
        if d.id = i then { d with flipped := false } else d }
  else w

/-- Body of `handleMatch`'s deferred callback (`src/main.js` lines
231–237): add `matched` to both elements, then `gameState = PLAYING`.  The
`gameState` write hits the engine regardless of which board the elements
belonged to. -/
def markMatchedTask (w : World) (g1 i1 g2 i2 : Nat) : World :=
  { setMatched (setMatched w g1 i1) g2 i2 with gameState := GState.playing }

/-- Body of `handleMismatch`'s deferred callback (`src/main.js` lines
247–251): remove `flipped` (and the shake class, visual only) from both
elements. -/
def unflipTask (w : World) (g1 i1 g2 i2 : Nat) : World :=
  setUnflipped (setUnflipped w g1 i1) g2 i2

/-- The `checkGameOver` that is in effect at runtime: the SECOND
definition in the class body (`src/main.js` lines 333–340), which
silently shadows the first.  If no unmatched card remains in the current
DOM, it clears the interval, plays the win sound and shows the message —
it does NOT set `gameState` and does NOT save the stats. -/
def checkGameOverEffective (w : World) : World :=
  if (w.cards.filter fun c => ¬ c.matched).length = 0 then
    { w with activeTimer := none, winShown := true }
  else w

/-- The first, SHADOWED definition of `checkGameOver` (`src/main.js`
lines 292–300) together with the `finishGame`/`saveGameStats` it calls
(lines 308–331): sets `gameState = FINISHED`, clears the interval, saves
the stats and shows the message.  Dead code at runtime; kept as the
in-source record of the intended behaviour. -/
def checkGameOverFirstDef (w : World) : World :=
  if (w.cards.filter fun c => ¬ c.matched).length = 0 then
    { w with gameState := GState.finished, activeTimer := none,
             statsSaved := true, winShown := true }
  else w

/-- Embedding of `checkMatch()` (`src/main.js` lines 204–219).  The destructuring
`const [card1, card2] = this.selectedCards` followed by
`card1.symbol === card2.symbol` throws a `TypeError` when the selection
holds fewer than two entries (reading `.symbol` of `undefined`) — the
callback then aborts before any mutation; we count that as a crash.
Otherwise: dispatch to `handleMatch` (set `gameState = CHECKING`, schedule
`markMatched` after `ANIMATION_DURATION`) or `handleMismatch` (schedule
`unflip` after `ANIMATION_DURATION * 2`), clear the selection, and
schedule the unlock callback after `CHECK_MATCH_DELAY`. -/
def checkMatchTask (w : World) : World :=
  match w.selectedCards with
  | e1 :: e2 :: _ =>
    let w1 :=
      if e1.symbol = e2.symbol then
        schedule { w with gameState := GState.checking } ANIMATION_DURATION
          (Task.markMatched e1.gen e1.id e2.gen e2.id)
      else
        schedule w (ANIMATION_DURATION * 2)
          (Task.unflip e1.gen e1.id e2.gen e2.id)
    schedule { w1 with selectedCards := [] } CHECK_MATCH_DELAY Task.unlock
  | _ => { w with crashes := w.crashes + 1 }

/-- The inner timeout of `checkMatch` (`src/main.js` lines 215–218):
`allowClick = true; checkGameOver()`. -/
def unlockTask (w : World) : World :=
  checkGameOverEffective { w with allowClick := true }

/-- The `setInterval` callback of `startTimer` (`src/main.js` lines
268–271): fires only while its interval is the live one (`clearInterval`
is modelled by retiring the interval id); increments `seconds` and renews
itself after 1000 ms. -/
def tickTask (w : World) (tid : Nat) : World :=
  if w.activeTimer = some tid then
    schedule { w with seconds := w.seconds + 1 } 1000 (Task.tick tid)
  else w

/-- Embedding of `startTimer()` (`src/main.js` lines 263–272): `clearInterval` the old
interval (retire its id), reset `seconds` to 0 and start a fresh
interval. -/
def startTimerStep (w : World) : World :=
  schedule { w with activeTimer := some (w.timerCount + 1),
                    timerCount := w.timerCount + 1, seconds := 0 }
    1000 (Task.tick (w.timerCount + 1))

/-- Board content built by `createGameBoard()` (`src/main.js` lines 142–153): the
cards of `shuffleCards(rows * cols)` rendered with neither the `flipped`
nor the `matched` class. -/
def boardCards (coins : List Bool) (rows cols : Nat) : List Card :=
  (shuffleCards coins (rows * cols)).map fun sc => ⟨sc.symbol, sc.id, false, false⟩

/-- Embedding of `startGame()` (`src/main.js` lines 357–374): hide the message, clear
the selection, re-enable clicks, reset the turn counter, rebuild the board
(`createGameBoard` — `innerHTML = ''` detaches every old card element, so
the generation is bumped) and restart the timer.  Note: it neither touches
`gameState` nor cancels any pending timeout.  When the level string names
an inherited `Object.prototype` member, `createGameBoard`'s destructuring
`const [rows, cols] = …` throws a `TypeError` — after `innerHTML = ''`
already cleared the board, and before `startTimer` could run. -/
def startGameStep (w : World) (level : String) (coins : List Bool) : World :=
  let w1 := { w with winShown := false, selectedCards := [], allowClick := true,
                     turns := 0 }
  match getDimensions level with
  | DimLookup.pair rows cols =>
      startTimerStep { w1 with gen := w1.gen + 1, cards := boardCards coins rows cols }
  | DimLookup.inherited =>
      { w1 with gen := w1.gen + 1, cards := [], crashes := w1.crashes + 1 }

/-- Lexicographic (due, seq) priority: run the earliest-due task first,
FIFO among equal deadlines. -/
def taskLE (a b : STask) : Bool :=
  a.due < b.due || (a.due = b.due && a.seq ≤ b.seq)

/-- The next task the event loop will run. -/
def minTask (ts : List STask) : Option STask :=
  ts.foldl
    (fun acc t =>
      match acc with
      | none => some t
      | some m => if taskLE t m then some t else some m)
    none

/-- Dispatch one task body. -/
def runTask (w : World) : Task → World
  | Task.checkMatch => checkMatchTask w
  | Task.unlock => unlockTask w
  | Task.markMatched g1 i1 g2 i2 => markMatchedTask w g1 i1 g2 i2
  | Task.unflip g1 i1 g2 i2 => unflipTask w g1 i1 g2 i2
  | Task.tick tid => tickTask w tid

/-- Run the next due task (sequence numbers are unique, so removing by
`seq` removes exactly the chosen task). -/
def stepWorld (w : World) : World :=
  match minTask w.tasks with
  | none => w
  | some t =>
    runTask { w with now := t.due, tasks := w.tasks.filter fun u => u.seq ≠ t.seq }
      t.task

/-- Run every task strictly due before time `T`, then advance the clock
to `T`.  `fuel` bounds the number of task executions (the timer interval
renews itself forever, so a fuel is needed for totality; every trace below
uses ample fuel). -/
def runUntil : Nat → World → Nat → World
  | 0, w, T => { w with now := T }
  | fuel + 1, w, T =>
    match minTask w.tasks with
    | none => { w with now := T }
    | some t => if t.due < T then runUntil fuel (stepWorld w) T else { w with now := T }

/-- External stimuli: a click on card `i` of the current board, or the
`startGame` driver (level-select change / new-game button), with the
shuffle's comparator coins supplied from outside. -/
inductive Ev where
  | click (i : Nat)
  | start (level : String) (coins : List Bool)

/-- Apply one external event at the current time. -/
def applyEv (w : World) : Ev → World
  | Ev.click i => flipStep w i
  | Ev.start level coins => startGameStep w level coins

/-- Run a timed script of external events, then all tasks up to time `T`. -/
def runScript (w : World) (evs : List (Nat × Ev)) (T fuel : Nat) : World :=
  runUntil fuel
    (evs.foldl (fun w p => applyEv (runUntil fuel w p.1) p.2) w) T

/-- The freshly constructed `MemoryGame` (`src/main.js` lines 60–67):
empty selection, clicks allowed, no timer, zero counters, state `IDLE`,
no board yet. -/
def initWorld : World :=
  ⟨[], 0, [], true, 0, 0, none, 0, GState.idle, false, false, 0, 0, [], 0⟩

/-! ## Lemmas about the shuffle -/

/-- Inserting with the coin-driven comparator only rearranges: the result
is a permutation of the element pushed onto the list. -/
theorem insertWith_perm (x : String) :
    ∀ (l : List String) (coins : List Bool),
      List.Perm (insertWith coins x l).2 (x :: l)
  | [], coins => by cases coins <;> simp [insertWith]
  | y :: ys, [] => by
      simpa [insertWith] using
        ((insertWith_perm x ys []).cons y).trans (List.Perm.swap x y ys)
  | y :: ys, true :: coins => by simp [insertWith]
  | y :: ys, false :: coins => by
      simpa [insertWith] using
        ((insertWith_perm x ys coins).cons y).trans (List.Perm.swap x y ys)

/-- The coin-driven sort — whatever the comparator answers — returns a
permutation of its input, as any comparison sort does. -/
theorem sortWith_perm :
    ∀ (l : List String) (coins : List Bool),
      List.Perm (sortWith coins l).2 l
  | [], coins => by simp [sortWith]
  | x :: xs, coins => by
      simpa [sortWith] using
        (insertWith_perm x (sortWith coins xs).2 (sortWith coins xs).1).trans
          ((sortWith_perm xs coins).cons x)

/-- The symbols of the generated cards are exactly the sorted deck. -/
theorem shuffleCards_map_symbol (coins : List Bool) (totalCards : Nat) :
    (shuffleCards coins totalCards).map SCard.symbol =
      (sortWith coins (symbols.take (totalCards / 2) ++
        symbols.take (totalCards / 2))).2 := by
  simp [shuffleCards, List.map_map, Function.comp_def, List.enum_map_snd]

/-- The ids of the generated cards are the array indices `0, 1, 2, …`. -/
theorem shuffleCards_map_id (coins : List Bool) (totalCards : Nat) :
    (shuffleCards coins totalCards).map SCard.id =
      List.range (shuffleCards coins totalCards).length := by
  simp [shuffleCards, List.map_map, Function.comp_def, List.enum_map_fst]

/-- Length of the generated card list: twice the truncated-and-capped
half-deck. -/
theorem shuffleCards_length (coins : List Bool) (totalCards : Nat) :
    (shuffleCards coins totalCards).length = 2 * min (totalCards / 2) 30 := by
  have h := (sortWith_perm (symbols.take (totalCards / 2) ++
    symbols.take (totalCards / 2)) coins).length_eq
  simp only [shuffleCards, List.length_map, List.enum_length]
  rw [h]
  have hs : symbols.length = 30 := by decide
  simp [List.length_take, hs]
  omega

/-! ## C2 — board generation and the sort-comparator shuffle -/

/-- C2 (counterexample): the shuffle is the sort-comparator hack
`.sort(() => Math.random() - 0.5)` and its output distribution is NOT a
uniformly random permutation.  Concrete input: the 2×2 board, whose deck
is `["1","2","1","2"]`.  Each comparator call is an independent fair coin
and at most 6 comparisons are made, so outcomes are distributed as over
the 64 equiprobable coin streams of length 6; a fair shuffle would give
every one of the 6 distinct arrangements probability `1/6`, but the
arrangement `["1","1","2","2"]` arises from 12 of the 64 streams while
`["2","2","1","1"]` arises from 6 — the two arrangements are not even
equally likely.  (No algorithm driven by at most 6 fair coins could be
uniform on 6 outcomes, since 6 does not divide 64.) -/
theorem c2_shuffle_not_uniform_counterexample :
    shuffleCount ["1", "1", "2", "2"] = 12 ∧
    shuffleCount ["2", "2", "1", "1"] = 6 ∧
    shuffleCount ["1", "1", "2", "2"] ≠ shuffleCount ["2", "2", "1", "1"] := by
  decide

/-- C2 (amended): board generation takes the first `(rows*cols)/2` symbols
from the pool, duplicates that set, permutes the 2-per-symbol deck with a
random **sort comparator** (`.sort(() => Math.random() - 0.5)` — a
sort-comparator hack whose output distribution is not uniform, see the
counterexample), and assigns sequential ids `0, 1, 2, …` to the shuffled
cards. -/
theorem c2_amended_board_generation (coins : List Bool) (totalCards : Nat) :
    List.Perm ((shuffleCards coins totalCards).map SCard.symbol)
      (symbols.take (totalCards / 2) ++ symbols.take (totalCards / 2)) ∧
    (shuffleCards coins totalCards).map SCard.id =
      List.range (shuffleCards coins totalCards).length := by
  constructor
  · rw [shuffleCards_map_symbol]
    exact sortWith_perm _ _
  · exact shuffleCards_map_id coins totalCards

/-! ## C3 — no `InvalidDimensions` failure exists -/

/-- C3 (counterexample): the claim says every request with `rows*cols` odd
or above `2 * |symbolPool| = 60` fails with `InvalidDimensions`.  The code
has no such error path at all: a 1×3 request yields a 2-card board
(`slice(0, 1.5)` silently truncates), and a 7×10 request yields a 60-card
board (`slice` silently caps at the pool length) — both succeed. -/
theorem c3_no_invalid_dimensions_counterexample :
    (shuffleCards [] (1 * 3)).length = 2 ∧
    (shuffleCards [] (7 * 10)).length = 60 := by decide

/-- C3 (amended): board creation never fails — there is no
`InvalidDimensions` error anywhere.  `shuffleCards` is total: an odd
`totalCards` is silently floored (`slice(0, totalCards / 2)` truncates)
and an oversized one silently capped at the pool size, so the board always
has `2 * min(⌊totalCards/2⌋, 30)` cards; separately, whenever the
level-based interface (`getDimensions`) yields a dimension pair at all,
that pair is even and in range, so the odd/oversized case is unreachable
from the UI (see C10). -/
theorem c3_amended_creation_total (coins : List Bool) (totalCards : Nat) :
    (shuffleCards coins totalCards).length = 2 * min (totalCards / 2) 30 :=
  shuffleCards_length coins totalCards

/-! ## C6 — board length and exactly-two-per-symbol -/

/-- C6: for every valid request (`rows*cols` even and within twice the
pool size) and every behaviour of the random comparator, the generated
board has `rows*cols` cards and exactly two cards of each symbol appearing
on it. -/
theorem c6_board_length_and_pairs (rows cols : Nat) (coins : List Bool)
    (heven : rows * cols % 2 = 0) (hsize : rows * cols ≤ 60) :
    (boardCards coins rows cols).length = rows * cols ∧
    ∀ s, s ∈ (boardCards coins rows cols).map Card.symbol →
      ((boardCards coins rows cols).map Card.symbol).count s = 2 := by
  have hs : symbols.length = 30 := by decide
  have hnodup : symbols.Nodup := by decide
  have hmap : (boardCards coins rows cols).map Card.symbol =
      (shuffleCards coins (rows * cols)).map SCard.symbol := by
    simp [boardCards, List.map_map, Function.comp_def]
  have hperm := sortWith_perm (symbols.take (rows * cols / 2) ++
    symbols.take (rows * cols / 2)) coins
  constructor
  · have : (boardCards coins rows cols).length =
        (shuffleCards coins (rows * cols)).length := by simp [boardCards]
    rw [this, shuffleCards_length]
    omega
  · intro s hmem
    rw [hmap, shuffleCards_map_symbol] at hmem ⊢
    rw [hperm.count_eq, List.count_append]
    have hmem' : s ∈ symbols.take (rows * cols / 2) ++
        symbols.take (rows * cols / 2) := hperm.mem_iff.mp hmem
    have hmem'' : s ∈ symbols.take (rows * cols / 2) := by
      rcases List.mem_append.mp hmem' with h | h <;> exact h
    have htake : (symbols.take (rows * cols / 2)).Nodup :=
      List.Nodup.sublist (List.take_sublist _ _) hnodup
    have hone : (symbols.take (rows * cols / 2)).count s = 1 :=
      List.count_eq_one_of_mem htake hmem''
    omega

/-- Witness for C6 at the 2×2 board with the all-non-negative comparator:
4 cards, and both appearing symbols occur exactly twice. -/
theorem c6_board_length_and_pairs_witness :
    (boardCards [] 2 2).length = 2 * 2 ∧
    ∀ s, s ∈ (boardCards [] 2 2).map Card.symbol →
      ((boardCards [] 2 2).map Card.symbol).count s = 2 :=
  c6_board_length_and_pairs 2 2 [] (by decide) (by decide)

/-! ## C10 — the dimension lookup and the prototype chain -/

/-- C10 (counterexample): the dimension lookup is NOT total over all
level strings.  `dimensions[level] || [4, 4]` reads through the prototype
chain of the object literal: for `level = "toString"` (likewise
`"valueOf"`, `"constructor"`, `"hasOwnProperty"`, `"__proto__"`, …) the
lookup yields the truthy inherited `Object.prototype` member, the
`|| [4, 4]` fallback is NOT taken, and `createGameBoard`'s destructuring
`const [rows, cols] = …` throws a `TypeError` — after `innerHTML = ''`
has already cleared the board and before `startTimer` could run.  So a
game started with such a level string crashes with an empty board instead
of falling back to 4×4, refuting both the "defined [rows, cols] pair" and
the "falling back to [4, 4] for unknown levels" parts of the claim. -/
theorem c10_dimensions_not_total_counterexample :
    getDimensions "toString" = DimLookup.inherited ∧
    getDimensions "valueOf" = DimLookup.inherited ∧
    (runScript initWorld [(5, Ev.start "toString" [])] 50 100).crashes = 1 ∧
    (runScript initWorld [(5, Ev.start "toString" [])] 50 100).cards = [] ∧
    (runScript initWorld [(5, Ev.start "toString" [])] 50 100).activeTimer
      = none := by decide

/-- C10 (amended): for every level string that does not name an inherited
`Object.prototype` member, the dimension lookup is total: the five
configured levels map to their pairs and every other such string falls
back to `[4, 4]`; and every pair the lookup can yield at all has
`rows*cols` even with `(rows*cols)/2` at most the pool size 30, so board
generation never sees the odd or oversized case through the public
interface.  For a string naming an `Object.prototype` member the lookup
instead returns the truthy inherited member — no fallback — and board
creation then throws (see the counterexample). -/
theorem c10_amended_dimensions (level : String) :
    (level ∉ protoKeys →
      ∃ rows cols, getDimensions level = DimLookup.pair rows cols ∧
        rows * cols % 2 = 0 ∧ rows * cols / 2 ≤ symbols.length) ∧
    (level ∈ protoKeys → getDimensions level = DimLookup.inherited) ∧
    (level ≠ "2x2" → level ≠ "4x3" → level ≠ "4x4" → level ≠ "4x5" →
      level ≠ "4x6" → level ∉ protoKeys →
      getDimensions level = DimLookup.pair 4 4) := by
  refine ⟨?_, ?_, ?_⟩
  · intro hp
    by_cases h1 : level = "2x2"
    · exact ⟨2, 2, by subst h1; decide, by decide, by decide⟩
    by_cases h2 : level = "4x3"
    · exact ⟨4, 3, by subst h2; decide, by decide, by decide⟩
    by_cases h3 : level = "4x4"
    · exact ⟨4, 4, by subst h3; decide, by decide, by decide⟩
    by_cases h4 : level = "4x5"
    · exact ⟨4, 5, by subst h4; decide, by decide, by decide⟩
    by_cases h5 : level = "4x6"
    · exact ⟨4, 6, by subst h5; decide, by decide, by decide⟩
    refine ⟨4, 4, ?_, by decide, by decide⟩
    unfold getDimensions
    rw [if_neg h1, if_neg h2, if_neg h3, if_neg h4, if_neg h5, if_neg hp]
  · intro hp
    have hmem : level = "constructor" ∨ level = "hasOwnProperty" ∨
        level = "isPrototypeOf" ∨ level = "propertyIsEnumerable" ∨
        level = "toLocaleString" ∨ level = "toString" ∨ level = "valueOf" ∨
        level = "__defineGetter__" ∨ level = "__defineSetter__" ∨
        level = "__lookupGetter__" ∨ level = "__lookupSetter__" ∨
        level = "__proto__" := by
      simpa [protoKeys] using hp
    rcases hmem with h | h | h | h | h | h | h | h | h | h | h | h <;>
      subst h <;> decide
  · intro n1 n2 n3 n4 n5 np
    unfold getDimensions
    rw [if_neg n1, if_neg n2, if_neg n3, if_neg n4, if_neg n5, if_neg np]

/-- Witness for C10 (amended) at the unrecognized non-prototype string
`"weird"` (fallback taken) and at the prototype member `"toString"`
(inherited member returned, no fallback). -/
theorem c10_amended_dimensions_witness :
    getDimensions "weird" = DimLookup.pair 4 4 ∧
    getDimensions "toString" = DimLookup.inherited :=
  ⟨(c10_amended_dimensions "weird").2.2 (by decide) (by decide) (by decide)
      (by decide) (by decide) (by decide),
   (c10_amended_dimensions "toString").2.1 (by decide)⟩

/-! ## Lemmas about `handleCardClick` and `checkMatch` -/

/-- Clicking an id that matches no card element is a no-op. -/
theorem flipStep_none (w : World) (i : Nat)
    (hf : w.cards.find? (fun c => c.id = i) = none) : flipStep w i = w := by
  unfold flipStep
  rw [hf]

/-- Embedding of the early return of `handleCardClick` (`src/main.js`
lines 183–187): with the lock engaged or the `flipped` / `matched` class
present, the click changes nothing. -/
theorem flipStep_noop (w : World) (i : Nat) (c : Card)
    (hf : w.cards.find? (fun c => c.id = i) = some c)
    (hg : ¬ w.allowClick ∨ c.flipped ∨ c.matched) : flipStep w i = w := by
  unfold flipStep
  rw [hf]
  exact if_pos hg

/-- With the input lock engaged every click is rejected. -/
theorem flipStep_locked (w : World) (i : Nat) (h : w.allowClick = false) :
    flipStep w i = w := by
  cases hf : w.cards.find? (fun c => c.id = i) with
  | none => exact flipStep_none w i hf
  | some c => exact flipStep_noop w i c hf (Or.inl (by simp [h]))

/-- With the input lock engaged, any burst of clicks is rejected. -/
theorem foldl_flipStep_locked (w : World) (ids : List Nat)
    (h : w.allowClick = false) : ids.foldl flipStep w = w := by
  induction ids with
  | nil => rfl
  | cons i ids ih => rw [List.foldl_cons, flipStep_locked w i h]; exact ih

/-- Shape of an accepted click: the card gets the `flipped` class, the
selection is extended, and if it reached length 2 the turn counter bumps,
the lock engages and `checkMatch` is scheduled. -/
theorem flipStep_accept (w : World) (i : Nat) (c : Card)
    (hf : w.cards.find? (fun c => c.id = i) = some c)
    (hg : ¬ (¬ w.allowClick ∨ c.flipped ∨ c.matched)) :
    flipStep w i =
      (if (w.selectedCards ++ [Sel.mk w.gen i c.symbol]).length = 2 then
        schedule
          { w with
            cards := w.cards.map fun d =>
              if d.id = i then { d with flipped := true } else d,
            selectedCards := w.selectedCards ++ [Sel.mk w.gen i c.symbol],
            allowClick := false,
            turns := w.turns + 1 }
          ANIMATION_DURATION Task.checkMatch
      else
        { w with
          cards := w.cards.map fun d =>
            if d.id = i then { d with flipped := true } else d,
          selectedCards := w.selectedCards ++ [Sel.mk w.gen i c.symbol] }) := by
  unfold flipStep
  rw [hf]
  exact if_neg hg

/-- Updating the clicked card's `flipped` class commutes with looking the
card up again: the second lookup finds the updated card. -/
theorem find?_map_setFlipped (l : List Card) (i : Nat) :
    (l.map fun d => if d.id = i then { d with flipped := true } else d).find?
        (fun c => c.id = i) =
      (l.find? fun c => c.id = i).map fun c => { c with flipped := true } := by
  induction l with
  | nil => rfl
  | cons d l ih =>
    by_cases h : d.id = i
    · simp [h]
    · simp [h, ih]

/-- An accepted click stores the board with the clicked card flipped. -/
theorem flipStep_accept_cards (w : World) (i : Nat) (c : Card)
    (hf : w.cards.find? (fun c => c.id = i) = some c)
    (hg : ¬ (¬ w.allowClick ∨ c.flipped ∨ c.matched)) :
    (flipStep w i).cards =
      w.cards.map fun d => if d.id = i then { d with flipped := true } else d := by
  rw [flipStep_accept w i c hf hg]
  split <;> simp [schedule]

/-- Idempotence of a click: clicking the same card again immediately,
whatever the state, has no further effect — the first click either was a
no-op or left the card with the `flipped` class, which the guard of
`handleCardClick` then rejects. -/
theorem flipStep_idem (w : World) (i : Nat) :
    flipStep (flipStep w i) i = flipStep w i := by
  cases hf : w.cards.find? (fun c => c.id = i) with
  | none => simp [flipStep_none w i hf]
  | some c =>
    by_cases hg : ¬ w.allowClick ∨ c.flipped ∨ c.matched
    · simp [flipStep_noop w i c hf hg]
    · have hfind : (flipStep w i).cards.find? (fun c => c.id = i) =
          some { c with flipped := true } := by
        rw [flipStep_accept_cards w i c hf hg, find?_map_setFlipped, hf]
        rfl
      exact flipStep_noop _ i _ hfind (Or.inr (Or.inl rfl))

/-- Embedding of the tail of `checkMatch` (`src/main.js` line 214): with
two selected cards the selection is cleared, and neither the lock nor the
turn counter is touched. -/
theorem checkMatchTask_clears (w : World) (e1 e2 : Sel) (rest : List Sel)
    (h : w.selectedCards = e1 :: e2 :: rest) :
    (checkMatchTask w).selectedCards = [] ∧
    (checkMatchTask w).allowClick = w.allowClick ∧
    (checkMatchTask w).turns = w.turns := by
  unfold checkMatchTask
  rw [h]
  by_cases hs : e1.symbol = e2.symbol <;> simp [hs, schedule]

/-- Resolution of a matching pair sets `gameState = CHECKING`
(`handleMatch`, `src/main.js` line 228). -/
theorem checkMatchTask_match_state (w : World) (e1 e2 : Sel) (rest : List Sel)
    (h : w.selectedCards = e1 :: e2 :: rest) (hs : e1.symbol = e2.symbol) :
    (checkMatchTask w).gameState = GState.checking := by
  unfold checkMatchTask
  rw [h]
  simp [hs, schedule]

/-- Resolution of a mismatching pair never writes `gameState`
(`handleMismatch`, `src/main.js` lines 240–252, touches only CSS classes
and audio). -/
theorem checkMatchTask_mismatch_state (w : World) (e1 e2 : Sel)
    (rest : List Sel) (h : w.selectedCards = e1 :: e2 :: rest)
    (hs : e1.symbol ≠ e2.symbol) :
    (checkMatchTask w).gameState = w.gameState := by
  unfold checkMatchTask
  rw [h]
  simp [hs, schedule]

/-! ## Concrete worlds used by counterexamples and witnesses -/

/-- World right after the initial `startGame()` on level `2x2` with the
comparator answering non-negative throughout: the board is
`["2", "1", "2", "1"]` (ids 0–3), state `IDLE`, clicks allowed. -/
def fw : World := runScript initWorld [(5, Ev.start "2x2" [])] 50 100

/-- One card (id 0, symbol `"2"`) clicked: selection of size 1. -/
def fw1 : World := flipStep fw 0

/-- A matching pair (ids 0 and 2, both `"2"`) selected: lock engaged. -/
def fw2 : World := flipStep fw1 2

/-- A mismatching pair (ids 0 and 1, `"2"` vs `"1"`) selected. -/
def fwm : World := flipStep fw1 1

/-! ## C7 — when a flip is a silently-ignored no-op -/

/-- C7 (counterexample): the claim says a flip is a no-op whenever the
state is not `Playing`.  But `handleCardClick` never consults `gameState`:
right after `startGame()` the state is still `IDLE` (`startGame` never
sets `PLAYING`), yet clicking card 0 is accepted — the card is flipped and
the selection grows to size 1. -/
theorem c7_flip_noop_counterexample :
    fw.gameState = GState.idle ∧
    fw.gameState ≠ GState.playing ∧
    (flipStep fw 0).selectedCards.length = 1 ∧
    flipStep fw 0 ≠ fw := by decide

/-- C7 (amended): a flip request is a silently-ignored no-op — no
selection change, no turn increment, no card mutation — whenever the
input lock `allowClick` is off (which is the case exactly from the flip
that fills the selection to 2 until the deferred unlock callback runs), or
the target card is already flipped or matched; `gameState` is never
consulted.  In particular flipping the same unmatched card twice in a row
before resolution has no additional effect. -/
theorem c7_amended_flip_noop :
    (∀ (w : World) (i : Nat) (c : Card),
        w.cards.find? (fun d => d.id = i) = some c →
        (¬ w.allowClick ∨ c.flipped ∨ c.matched) → flipStep w i = w) ∧
    ∀ (w : World) (i : Nat), flipStep (flipStep w i) i = flipStep w i :=
  ⟨flipStep_noop, flipStep_idem⟩

/-- Witness for C7: with the matching pair selected the lock is engaged,
so a click on the untouched card 3 is rejected; and the double-click on
card 0 right after the first click has no further effect. -/
theorem c7_amended_flip_noop_witness :
    flipStep fw2 3 = fw2 ∧ flipStep (flipStep fw 0) 0 = flipStep fw 0 :=
  ⟨c7_amended_flip_noop.1 fw2 3 (Card.mk "1" 3 false false) (by decide)
    (by decide),
   c7_amended_flip_noop.2 fw 0⟩

/-! ## C8 — turn counter increments -/

/-- C8: the turn counter increases by exactly 1 on each `flipCard` call
that produces a selection of size 2 (that is, accepts a click while the
selection did not have size 2 and leaves it with size 2), and never
changes on a flip that produces a selection of size 1. -/
theorem c8_turn_counter (w : World) (i : Nat) :
    (w.selectedCards.length ≠ 2 → (flipStep w i).selectedCards.length = 2 →
      (flipStep w i).turns = w.turns + 1) ∧
    ((flipStep w i).selectedCards.length = 1 →
      (flipStep w i).turns = w.turns) := by
  cases hf : w.cards.find? (fun c => c.id = i) with
  | none =>
    rw [flipStep_none w i hf]
    exact ⟨fun h1 h2 => absurd h2 h1, fun _ => rfl⟩
  | some c =>
    by_cases hg : ¬ w.allowClick ∨ c.flipped ∨ c.matched
    · rw [flipStep_noop w i c hf hg]
      exact ⟨fun h1 h2 => absurd h2 h1, fun _ => rfl⟩
    · rw [flipStep_accept w i c hf hg]
      by_cases hl : (w.selectedCards ++ [Sel.mk w.gen i c.symbol]).length = 2
      · rw [if_pos hl]
        constructor
        · intro _ _
          simp [schedule]
        · intro hcon
          simp only [schedule, List.length_append, List.length_cons,
            List.length_nil] at hcon hl
          omega
      · rw [if_neg hl]
        exact ⟨fun _ h2 => absurd h2 hl, fun _ => rfl⟩

/-- Witness for C8: the click completing the matching pair bumps the turn
counter from 0 to 1, while the first (single) flip left it unchanged. -/
theorem c8_turn_counter_witness :
    (flipStep fw1 2).turns = fw1.turns + 1 ∧
    (flipStep fw 0).turns = fw.turns :=
  ⟨(c8_turn_counter fw1 2).1 (by decide) (by decide),
   (c8_turn_counter fw 0).2 (by decide)⟩

/-! ## C9 — selection is empty after every resolution -/

/-- C9: after every resolution — match or mismatch alike, the proof
splits on the symbol comparison inside `checkMatch` — the selection has
size 0, and it still has size 0 after any burst of flip attempts arriving
before the unlock callback (the lock engaged by the second flip is still
on, so every such flip is rejected). -/
theorem c9_selection_cleared (w : World) (ids : List Nat)
    (hsel : 2 ≤ w.selectedCards.length) (hlock : w.allowClick = false) :
    (checkMatchTask w).selectedCards = [] ∧
    (List.foldl flipStep (checkMatchTask w) ids).selectedCards = [] := by
  obtain ⟨e1, e2, rest, h⟩ :
      ∃ e1 e2 rest, w.selectedCards = e1 :: e2 :: rest := by
    match hw : w.selectedCards with
    | [] => rw [hw] at hsel; simp at hsel
    | [e] => rw [hw] at hsel; simp at hsel
    | e1 :: e2 :: rest => exact ⟨e1, e2, rest, rfl⟩
  have hc := checkMatchTask_clears w e1 e2 rest h
  have hlock' : (checkMatchTask w).allowClick = false := by
    rw [hc.2.1, hlock]
  rw [foldl_flipStep_locked _ ids hlock']
  exact ⟨hc.1, hc.1⟩

/-- Witness for C9: resolving the selected matching pair empties the
selection, and it stays empty through a burst of three further clicks. -/
theorem c9_selection_cleared_witness :
    (checkMatchTask fw2).selectedCards = [] ∧
    (List.foldl flipStep (checkMatchTask fw2) [1, 3, 0]).selectedCards = [] :=
  c9_selection_cleared fw2 [1, 3, 0] (by decide) (by decide)

/-! ## C4 — Checking state vs. the `allowClick` lock -/

/-- C4 (counterexample): the claim says every flip that brings the
selection to size 2 transitions the engine to `Checking`, and that after
resolution it transitions back to `Playing` for both outcomes.  Concrete
run (2×2 board, clicks on the mismatching cards 0 and 1 at t=100 ms and
t=200 ms): immediately after the second flip the selection has size 2 but
`gameState` is still `IDLE`, and at t=2700 ms — after the mismatch
resolution, the unflip and the unlock callback have all run
(`allowClick` is `true` again) — `gameState` is STILL `IDLE`: in the
mismatch path the engine is never in `Checking` and never reaches
`Playing`. -/
theorem c4_checking_state_counterexample :
    (runScript initWorld
      [(5, Ev.start "2x2" []), (100, Ev.click 0), (200, Ev.click 1)]
      201 100).selectedCards.length = 2 ∧
    (runScript initWorld
      [(5, Ev.start "2x2" []), (100, Ev.click 0), (200, Ev.click 1)]
      201 100).gameState = GState.idle ∧
    (runScript initWorld
      [(5, Ev.start "2x2" []), (100, Ev.click 0), (200, Ev.click 1)]
      2700 100).gameState = GState.idle ∧
    (runScript initWorld
      [(5, Ev.start "2x2" []), (100, Ev.click 0), (200, Ev.click 1)]
      2700 100).allowClick = true := by decide

/-- C4 (amended): the flip that brings the selection to size 2 engages
the input lock (`allowClick = false`) — not the `Checking` state — and
leaves `gameState` untouched; while the lock is engaged every flip is
rejected, and the deferred unlock callback (scheduled `CHECK_MATCH_DELAY`
after resolution starts) releases it.  `gameState` becomes `CHECKING`
only inside the match branch of the resolution, and `PLAYING` only when
the deferred `handleMatch` callback runs; in the mismatch branch
`gameState` is not written at all. -/
theorem c4_amended_lock_discipline :
    (∀ (w : World) (i : Nat),
        w.selectedCards.length ≠ 2 → (flipStep w i).selectedCards.length = 2 →
        (flipStep w i).allowClick = false ∧
        (flipStep w i).gameState = w.gameState) ∧
    (∀ (w : World) (i : Nat), w.allowClick = false → flipStep w i = w) ∧
    (∀ (w : World) (e1 e2 : Sel) (rest : List Sel),
        w.selectedCards = e1 :: e2 :: rest → e1.symbol = e2.symbol →
        (checkMatchTask w).gameState = GState.checking) ∧
    (∀ (w : World) (g1 i1 g2 i2 : Nat),
        (markMatchedTask w g1 i1 g2 i2).gameState = GState.playing) ∧
    (∀ (w : World) (e1 e2 : Sel) (rest : List Sel),
        w.selectedCards = e1 :: e2 :: rest → e1.symbol ≠ e2.symbol →
        (checkMatchTask w).gameState = w.gameState) ∧
    ∀ w : World, (unlockTask w).allowClick = true := by
  refine ⟨?_, flipStep_locked, checkMatchTask_match_state, ?_,
    checkMatchTask_mismatch_state, ?_⟩
  · intro w i h1 h2
    cases hf : w.cards.find? (fun c => c.id = i) with
    | none => rw [flipStep_none w i hf] at h2; exact absurd h2 h1
    | some c =>
      by_cases hg : ¬ w.allowClick ∨ c.flipped ∨ c.matched
      · rw [flipStep_noop w i c hf hg] at h2; exact absurd h2 h1
      · rw [flipStep_accept w i c hf hg] at h2 ⊢
        by_cases hl : (w.selectedCards ++ [Sel.mk w.gen i c.symbol]).length = 2
        · rw [if_pos hl]
          exact ⟨by simp [schedule], by simp [schedule]⟩
        · rw [if_neg hl] at h2
          exact absurd h2 hl
  · intro w g1 i1 g2 i2
    simp [markMatchedTask]
  · intro w
    unfold unlockTask checkGameOverEffective
    split <;> rfl

/-- Witness for C4 (amended): concrete instantiations of every conjunct
on the 2×2 worlds — the pair-completing click engages the lock and leaves
the state `IDLE`; a click bounces off the locked world; match resolution
enters `CHECKING` and its deferred callback enters `PLAYING`; mismatch
resolution leaves the state unchanged; the unlock callback re-enables
clicks. -/
theorem c4_amended_lock_discipline_witness :
    ((flipStep fw1 2).allowClick = false ∧
      (flipStep fw1 2).gameState = fw1.gameState) ∧
    flipStep fw2 1 = fw2 ∧
    (checkMatchTask fw2).gameState = GState.checking ∧
    (markMatchedTask fw2 1 0 1 2).gameState = GState.playing ∧
    (checkMatchTask fwm).gameState = fwm.gameState ∧
    (unlockTask fw2).allowClick = true :=
  ⟨c4_amended_lock_discipline.1 fw1 2 (by decide) (by decide),
   c4_amended_lock_discipline.2.1 fw2 1 (by decide),
   c4_amended_lock_discipline.2.2.1 fw2 (Sel.mk 1 0 "2") (Sel.mk 1 2 "2") []
     (by decide) (by decide),
   c4_amended_lock_discipline.2.2.2.1 fw2 1 0 1 2,
   c4_amended_lock_discipline.2.2.2.2.1 fwm (Sel.mk 1 0 "2") (Sel.mk 1 1 "1")
     [] (by decide) (by decide),
   c4_amended_lock_discipline.2.2.2.2.2 fw2⟩

/-! ## C1 — win detection -/

/-- Full 2×2 game on the board `["2", "1", "2", "1"]`: both `"2"` cards
matched (clicks at 100/200 ms), then both `"1"` cards (clicks at
2500/2600 ms after the unlock at 2400 ms); the second match resolves at
3200 ms, its deferred callback marks the cards at 3800 ms, and the unlock
at 4800 ms runs the effective `checkGameOver`. -/
def winScript : List (Nat × Ev) :=
  [(5, Ev.start "2x2" []), (100, Ev.click 0), (200, Ev.click 2),
   (2500, Ev.click 1), (2600, Ev.click 3)]

/-- C1 (code bug): once every card is matched, the effective
`checkGameOver` — the SECOND definition of the method (`src/main.js`
lines 333–340), which silently shadows the first (lines 292–300) — does
stop the timer (the interval is cleared at 4800 ms, `seconds` froze at 4
and stays 4 arbitrarily later) and shows the win message, but it leaves
`gameState = PLAYING` instead of transitioning to `Finished`, and it
never calls `finishGame`/`saveGameStats`, so no final Stats record is
signalled.  The shadowed first definition applied to the same final world
would have produced the `Finished` transition the claim (and the spec's
§4.2) requires. -/
theorem c1_win_detection_code_bug :
    ((runScript initWorld winScript 7000 100).cards.all fun c => c.matched)
      = true ∧
    (runScript initWorld winScript 7000 100).activeTimer = none ∧
    (runScript initWorld winScript 7000 100).seconds = 4 ∧
    (runScript initWorld winScript 9000 100).seconds = 4 ∧
    (runScript initWorld winScript 7000 100).winShown = true ∧
    (runScript initWorld winScript 7000 100).gameState = GState.playing ∧
    (runScript initWorld winScript 7000 100).statsSaved = false ∧
    (checkGameOverFirstDef (runScript initWorld winScript 7000 100)).gameState
      = GState.finished := by decide

/-! ## C5 — stale deferred callbacks across `startGame` -/

/-- Two back-to-back games with a mismatch pending when the second one
starts: game 1's mismatch resolves at 800 ms scheduling its unlock for
2400 ms; `startGame` at 900 ms replaces the board WITHOUT cancelling it;
game 2 selects a mismatching pair at 1000/1100 ms, resolving at 1700 ms
with its own unlock due at 3300 ms. -/
def staleScript : List (Nat × Ev) :=
  [(5, Ev.start "2x2" []), (100, Ev.click 0), (200, Ev.click 1),
   (900, Ev.start "2x2" []), (1000, Ev.click 0), (1100, Ev.click 1)]

/-- Game restarted at 500 ms, between the second flip (200 ms) and the
pending `checkMatch` callback (due 800 ms). -/
def crashScript : List (Nat × Ev) :=
  [(5, Ev.start "2x2" []), (100, Ev.click 0), (200, Ev.click 1),
   (500, Ev.start "2x2" [])]

/-- C5 (code bug): `startGame` cancels nothing, and stale callbacks from
the previous game DO mutate the new game's state.  In `staleScript`, the
new game's input lock is engaged at 2350 ms (its own resolution is
pending, unlock due only at 3300 ms), yet at 2450 ms `allowClick` is
`true`: game 1's stale unlock callback fired at 2400 ms and released the
new game's lock 900 ms early — after which a click on card 2 at 2500 ms
is accepted, giving a selection of size 1 while the pending resolution's
unflip and unlock are still queued.  In `crashScript`, `startGame`
empties `selectedCards` while game 1's `checkMatch` is pending, so that
callback throws at 800 ms (destructuring an empty selection and reading
`.symbol` of `undefined`): one uncaught exception. -/
theorem c5_stale_callback_code_bug :
    (runScript initWorld staleScript 2350 100).allowClick = false ∧
    (runScript initWorld staleScript 2450 100).allowClick = true ∧
    ((runScript initWorld staleScript 2450 100).tasks.filter
      fun t => t.task = Task.unlock).map STask.due = [3300] ∧
    (runScript initWorld (staleScript ++ [(2500, Ev.click 2)])
      2550 100).selectedCards.length = 1 ∧
    (runScript initWorld crashScript 900 100).crashes = 1 := by decide

end MG
